import Mathlib

/-!
A shallow embedding of the command-dispatch and configuration-resolution
pipeline of the Tuxbot repository (src/bot.py, src/tuxbot/core/bot.py,
src/tuxbot/cogs/logs/logs.py), together with theorems settling the claims
about it.  Machine integers: Discord snowflake ids are modelled as `Nat`
(they are non-negative and no arithmetic overflows are involved).
-/

namespace Tuxbot

/-- A Discord snowflake id. -/
abbrev Snowflake := Nat

/-- The fields of `message.author` the pipeline reads: `author.id` and the
`author.bot` flag. -/
structure Author where
  id : Snowflake
  bot : Bool
  deriving DecidableEq, Repr

/-- The fields of a `discord.Message` the pipeline reads.  `guild` is
`message.guild` collapsed to its id: `none` for a direct message (the Python
attribute is `None` there), `some gid` otherwise.  `channelId` is
`message.channel.id` and `content` is `message.content`. -/
structure Message where
  author : Author
  guild : Option Snowflake
  channelId : Snowflake
  content : String
  deriving DecidableEq, Repr

/-- The blacklist kinds of `Config.get_blacklist` ("user", "channel",
"guild"). -/
inductive BlacklistKind where
  | user
  | channel
  | guild
  deriving DecidableEq, Repr

/-- Modelled from the spec: the configuration store `tuxbot.core.Config` is
not under `src/` (only its callers are).  Spec §4.1 gives the contract
`blacklist(kind) -> set of ID` with kind ∈ \x7buser, channel, guild\x7d, and
§6 gives the `core` namespace the fields `prefixes` (list of string),
`mentionable` (bool) and `owners_id` (list of integer).  `guildPrefixes` is
the per-guild override table of §3 ("GuildPrefixOverride"): the override
list of a guild, empty if none is configured. -/
structure Config where
  corePrefixes : List String
  mentionable : Bool
  guildPrefixes : Snowflake → List String
  blacklistUser : List Snowflake
  blacklistChannel : List Snowflake
  blacklistGuild : List Snowflake
  ownersId : List Snowflake

/-- `Config.get_blacklist(kind)` (called at src/tuxbot/core/bot.py:203-205). -/
def Config.get_blacklist (cfg : Config) : BlacklistKind → List Snowflake
  | .user => cfg.blacklistUser
  | .channel => cfg.blacklistChannel
  | .guild => cfg.blacklistGuild

/-- Modelled from the spec: `Config.get_prefixes` (called at
src/tuxbot/core/bot.py:63) is not under `src/`.  Spec §4.2: "If the message
has an associated guild, append that guild's override list (empty if none
configured)" and "guild-less messages (direct messages) never consult guild
overrides", so a guild-less lookup contributes no overrides. -/
def Config.get_prefixes (cfg : Config) : Option Snowflake → List String
  | none => []
  | some g => cfg.guildPrefixes g

/-- discord.py `commands.when_mentioned`: the two literal mention forms of
the bot user, each followed by one space. -/
def when_mentioned (botUserId : Snowflake) : List String :=
  ["<@" ++ toString botUserId ++ "> ", "<@!" ++ toString botUserId ++ "> "]

/-- discord.py `commands.when_mentioned_or(*extras)`: the mention forms
first, then the extra prefixes in their given order. -/
def when_mentioned_or (extras : List String) (botUserId : Snowflake) :
    List String :=
  when_mentioned botUserId ++ extras

/-- The `_prefixes` closure of `Tux.__init__` (src/tuxbot/core/bot.py:60-67):

```
prefixes = self.config("core").get("prefixes")
prefixes.extend(self.config.get_prefixes(message.guild))
if self.config("core").get("mentionable"):
    return commands.when_mentioned_or(*prefixes)(bot, message)
return prefixes
```

The local `prefixes` aliases the very list object stored under the `core`
namespace, and `.extend` mutates that object in place, so the resolver is
modelled as returning the resolved list together with the updated store
(second component): its `corePrefixes` field holds the extended list. -/
def Tux._prefixes (botUserId : Snowflake) (cfg : Config) (message : Message) :
    List String × Config :=
  let prefixes := cfg.corePrefixes ++ cfg.get_prefixes message.guild
  let cfg' := { cfg with corePrefixes := prefixes }
  if cfg.mentionable then
    (when_mentioned_or prefixes botUserId, cfg')
  else
    (prefixes, cfg')

/-- `_prefix_callable` (src/bot.py:33-38):

```
extras = ['.']
if message.guild is not None:
    extras = bot.prefixes.get(str(message.guild.id), [])
return commands.when_mentioned_or(*extras)(bot, message)
```

`bot.prefixes` is the per-guild prefix store `Config('prefixes.json')`,
modelled as the total lookup `prefixesStore` (the `.get(..., [])` default
makes it total with default `[]`). -/
def _prefix_callable (prefixesStore : Snowflake → List String)
    (botUserId : Snowflake) (message : Message) : List String :=
  let extras : List String :=
    match message.guild with
    | none => ["."]
    | some g => prefixesStore g
  when_mentioned_or extras botUserId

/-- Python string slicing `s[n:]`, over the character list. -/
def dropChars (s : String) (n : Nat) : String :=
  ⟨s.data.drop n⟩

/-- Python `s.startswith(p)`, over the character lists. -/
def startsWith (p s : String) : Bool :=
  p.data.isPrefixOf s.data

/-- discord.py `StringView.get_word` as used by `Bot.get_context`: the
maximal run of non-whitespace characters at the start of the remaining
content is the command invoker. -/
def get_word (s : String) : String :=
  ⟨s.data.takeWhile (fun c => !c.isWhitespace)⟩

/-- discord.py `Bot.get_context` over a list-valued command prefix: the
first prefix of the resolved list that the message content starts with. -/
def firstMatch (pfxs : List String) (content : String) : Option String :=
  pfxs.find? (fun p => startsWith p content)

/-- `ctx.valid` of the context `Tux.get_context` builds: some prefix of the
resolved list matched and the word following it names a known command. -/
def ctx_valid (pfxs known : List String) (content : String) : Bool :=
  match firstMatch pfxs content with
  | none => false
  | some p => known.contains (get_word (dropChars content p.length))

/-- An observable effect of dispatching one message. -/
inductive Effect where
  /-- `self.dispatch("message_without_command", message)`
  (src/tuxbot/core/bot.py:212). -/
  | signalMessageWithoutCommand
  /-- `await self.invoke(ctx)` (src/tuxbot/core/bot.py:214) on a valid
  context for the named command. -/
  | invoke (command : String)
  deriving DecidableEq, Repr

/-- The `AttributeError` text Python raises for `message.guild.id` when
`message.guild` is `None`. -/
def attributeErrorMsg : String :=
  "AttributeError: 'NoneType' object has no attribute 'id'"

/-- `Tux.process_commands` (src/tuxbot/core/bot.py:195-214):

```
if message.author.bot:
    return
if (
        message.guild.id in self.config.get_blacklist("guild")
        or message.channel.id in self.config.get_blacklist("channel")
        or message.author.id in self.config.get_blacklist("user")
):
    return
ctx = await self.get_context(message)
if ctx is None or ctx.valid is False:
    self.dispatch("message_without_command", message)
else:
    await self.invoke(ctx)
```

`known` is the set of registered command names (`bot.all_commands`),
`botUserId` the bot user's id (for the mention prefixes).  The result is
`.ok effects` for a normal return with the listed observable effects, and
`.error` for an uncaught exception: for a guild-less message the very first
operand `message.guild.id` of the blacklist disjunction dereferences `None`
and raises `AttributeError` before any membership test, signal or
invocation. -/
def Tux.process_commands (cfg : Config) (known : List String)
    (botUserId : Snowflake) (message : Message) :
    Except String (List Effect) :=
  if message.author.bot then .ok []
  else
    match message.guild with
    | none => .error attributeErrorMsg
    | some gid =>
      if (cfg.get_blacklist .guild).contains gid
          || (cfg.get_blacklist .channel).contains message.channelId
          || (cfg.get_blacklist .user).contains message.author.id then
        .ok []
      else
        let pfxs := (Tux._prefixes botUserId cfg message).1
        match firstMatch pfxs message.content with
        | none => .ok [.signalMessageWithoutCommand]
        | some p =>
          let invoker := get_word (dropChars message.content p.length)
          if known.contains invoker then .ok [.invoke invoker]
          else .ok [.signalMessageWithoutCommand]

/-- The bot state `Tux.is_owner` reads and writes: the persisted
`owners_id` list of the `core` namespace and the `_app_owners_fetched`
flag (src/tuxbot/core/bot.py:82). -/
structure OwnerState where
  ownersId : List Snowflake
  appOwnersFetched : Bool
  deriving DecidableEq, Repr

/-- What one call to `Tux.is_owner` produces: the boolean answer, how many
remote `application_info()` lookups the call performed, and the state it
leaves behind. -/
structure OwnerResult where
  owner : Bool
  remoteLookups : Nat
  state : OwnerState
  deriving DecidableEq, Repr

/-- `Tux.is_owner` (src/tuxbot/core/bot.py:166-190):

```
if user.id in self.config.owners_id():
    return True
owner = False
if not self._app_owners_fetched:
    app = await self.application_info()
    if app.team:
        ids = [m.id for m in app.team.members]
        await self.config.update("core", "owners_id", ids)
        owner = user.id in ids
    self._app_owners_fetched = True
return owner
```

`team` is the remote application's team member-id list delivered by the
one `application_info()` call (`none` when the application has no team).
Modelled from the spec where `src/` is silent: `Config.owners_id()` reads
the persisted `owners_id` list and `Config.update("core", "owners_id",
ids)` assigns `ids` to that key (spec §4.1: `update(namespace, key, value)`,
persisted immediately). -/
def Tux.is_owner (team : Option (List Snowflake)) (uid : Snowflake)
    (st : OwnerState) : OwnerResult :=
  if st.ownersId.contains uid then
    { owner := true, remoteLookups := 0, state := st }
  else if !st.appOwnersFetched then
    match team with
    | some ids =>
      { owner := ids.contains uid, remoteLookups := 1,
        state := { ownersId := ids, appOwnersFetched := true } }
    | none =>
      { owner := false, remoteLookups := 1,
        state := { st with appOwnersFetched := true } }
  else
    { owner := false, remoteLookups := 0, state := st }

/-- The classification of the `original` error carried by an invocation or
conversion failure (src/tuxbot/cogs/logs/logs.py:213-214): a
`discord.Forbidden`, a `discord.NotFound`, or any other exception, carried
with the text `traceback.format_exception` renders for it. -/
inductive OriginalError where
  | forbidden
  | notFound
  | generic (excText : String)
  deriving DecidableEq, Repr

/-- The `commands.CommandError` kinds the two error handlers distinguish. -/
inductive CommandError where
  /-- `commands.NoPrivateMessage`: a guild-only command used in a DM. -/
  | noPrivateMessage
  /-- `commands.DisabledCommand`. -/
  | disabledCommand
  /-- `commands.CommandInvokeError` wrapping the handler's exception. -/
  | commandInvokeError (original : OriginalError)
  /-- `commands.ConversionError` wrapping the converter's exception. -/
  | conversionError (original : OriginalError)
  /-- any other `commands.CommandError` subclass. -/
  | otherCommandError
  deriving DecidableEq, Repr

/-- `TuxBot.on_command_error` (src/bot.py:81-92): the direct replies sent
to `ctx.author`, in order.  Only `NoPrivateMessage` and `DisabledCommand`
get a reply; everything else falls through with no action. -/
def TuxBot.on_command_error : CommandError → List String
  | .noPrivateMessage =>
    ["This command cannot be used in private messages."]
  | .disabledCommand =>
    ["Sorry. This command is disabled and cannot be used."]
  | _ => []

/-- The fields of the invocation context `Logs.on_command_error` reads for
its report. -/
structure CtxInfo where
  commandName : String
  authorId : Snowflake
  deriving DecidableEq, Repr

/-- A structured report sent to the external `errors` webhook: embed field
"Name" (`ctx.command.qualified_name`), embed field "Author" carrying
`ctx.author.id`, and the embed description holding the formatted trace
block. -/
structure ErrorReport where
  name : String
  authorId : Snowflake
  description : String
  deriving DecidableEq, Repr

/-- The embed description `Logs.on_command_error` builds from the joined
`traceback.format_exception` text (src/tuxbot/cogs/logs/logs.py:230-235). -/
def traceBlock (excText : String) : String :=
  "```py\n" ++ excText ++ "\n```"

/-- `Logs.on_command_error` (src/tuxbot/cogs/logs/logs.py:205-237): the
reports it sends to the external `errors` sink.

```
if not isinstance(error, (commands.CommandInvokeError, commands.ConversionError)):
    return
error = error.original
if isinstance(error, (discord.Forbidden, discord.NotFound)):
    return
e = discord.Embed(title="Command Error", ...)
...
await self.logs.get("errors").send(embed=e)
```

Anything that is neither an invocation nor a conversion failure produces no
report; a `Forbidden`/`NotFound` original is silently dropped; any other
original yields exactly one report. -/
def Logs.on_command_error (ctx : CtxInfo) : CommandError → List ErrorReport
  | .commandInvokeError orig | .conversionError orig =>
    match orig with
    | .forbidden | .notFound => []
    | .generic excText =>
      [{ name := ctx.commandName, authorId := ctx.authorId,
         description := traceBlock excText }]
  | _ => []

/-- A failure the webhook `send` call can raise.  The module-level
`on_error` catches exactly `discord.HTTPException`, `discord.NotFound`,
`discord.Forbidden` and `discord.InvalidArgument`
(src/tuxbot/cogs/logs/logs.py:313-318); `otherException` stands for any
exception type outside that tuple. -/
inductive SendError where
  | httpException
  | sendNotFound
  | sendForbidden
  | invalidArgument
  | otherException (msg : String)
  deriving DecidableEq, Repr

/-- The module-level `on_error` handler (src/tuxbot/cogs/logs/logs.py:
298-319), abstracted over the outcome of its one webhook `send` call
(`delivery = none` meaning the send succeeded):

```
hook = self.get_cog("Logs").logs.get("errors")
try:
    await hook.send(embed=e)
except (discord.HTTPException, discord.NotFound, discord.Forbidden,
        discord.InvalidArgument):
    pass
```

`.ok ()` is a normal return; `.error` is an exception escaping the handler
back into the event loop. -/
def on_error (delivery : Option SendError) : Except SendError Unit :=
  match delivery with
  | none => .ok ()
  | some .httpException => .ok ()
  | some .sendNotFound => .ok ()
  | some .sendForbidden => .ok ()
  | some .invalidArgument => .ok ()
  | some (.otherException m) => .error (.otherException m)

/-- `Logs.on_command_error` with the webhook delivery outcome made
explicit: the `await self.logs.get("errors").send(embed=e)` call
(src/tuxbot/cogs/logs/logs.py:237) stands in no `try` block, so any
failure of the send propagates out of the listener.  `delivery r = none`
means the send of report `r` succeeded. -/
def Logs.on_command_error_send (ctx : CtxInfo) (e : CommandError)
    (delivery : ErrorReport → Option SendError) :
    Except SendError (List ErrorReport) :=
  match Logs.on_command_error ctx e with
  | [] => .ok []
  | r :: _ =>
    match delivery r with
    | none => .ok [r]
    | some err => .error err

/-! Concrete fixtures used by witnesses and counterexamples. -/

/-- A store: core prefixes `["!"]`, mention matching off, no guild
overrides, user id 7 blacklisted. -/
def cfgEx : Config :=
  { corePrefixes := ["!"], mentionable := false,
    guildPrefixes := fun _ => [],
    blacklistUser := [7], blacklistChannel := [], blacklistGuild := [],
    ownersId := [1] }

/-- A store with no core prefixes and mention matching off. -/
def cfgNoPrefixes : Config :=
  { corePrefixes := [], mentionable := false,
    guildPrefixes := fun _ => [],
    blacklistUser := [], blacklistChannel := [], blacklistGuild := [],
    ownersId := [] }

/-- A store whose every guild override list is `["?"]`. -/
def cfgGuild : Config :=
  { corePrefixes := ["!"], mentionable := false,
    guildPrefixes := fun _ => ["?"],
    blacklistUser := [], blacklistChannel := [], blacklistGuild := [],
    ownersId := [] }

/-- A direct message from the blacklisted user 7. -/
def dmFromBlacklisted : Message :=
  { author := { id := 7, bot := false }, guild := none, channelId := 5,
    content := "!ping" }

/-- A direct message from the unblacklisted user 8, content `"ping"`. -/
def dmPlain : Message :=
  { author := { id := 8, bot := false }, guild := none, channelId := 5,
    content := "ping" }

/-- Another direct message from an unblacklisted user. -/
def dmOther : Message :=
  { author := { id := 12, bot := false }, guild := none, channelId := 6,
    content := "!help" }

/-- A guild message from the blacklisted user 7. -/
def guildMsgBlacklisted : Message :=
  { author := { id := 7, bot := false }, guild := some 11, channelId := 5,
    content := "!ping" }

/-- A guild message from the unblacklisted user 8, content `"ping"` (no
prefix matches it under `cfgEx`). -/
def guildMsgPlain : Message :=
  { author := { id := 8, bot := false }, guild := some 11, channelId := 5,
    content := "ping" }

/-- A guild message in guild 17 (used with `cfgGuild`). -/
def guildMsg17 : Message :=
  { author := { id := 3, bot := false }, guild := some 17, channelId := 4,
    content := "!ping" }

/-! Claim theorems. -/

/-- C1 (amended): for every incoming message that has an associated guild
and whose author id, channel id or guild id is blacklisted,
`Tux.process_commands` drops the message with no observable side effect —
no command invoked, no reply, no signal (the returned effect list is
empty).  (As stated over all messages the claim fails: a non-bot direct
message from a blacklisted author raises `AttributeError` at the guild
dereference instead of dropping silently, see the counterexample.) -/
theorem C1_blacklisted_guild_message_dropped
    (cfg : Config) (known : List String) (botUserId : Snowflake)
    (m : Message) (gid : Snowflake) (hg : m.guild = some gid)
    (hbl : gid ∈ cfg.get_blacklist .guild
        ∨ m.channelId ∈ cfg.get_blacklist .channel
        ∨ m.author.id ∈ cfg.get_blacklist .user) :
    Tux.process_commands cfg known botUserId m = .ok [] := by
  unfold Tux.process_commands
  by_cases hb : m.author.bot = true
  · simp [hb]
  · simp only [hb, Bool.false_eq_true, if_false]
    rw [hg]
    rcases hbl with h | h | h <;> simp [h]

/-- C1 witness: under `cfgEx` (user 7 blacklisted) the guild message from
user 7 is dropped with no effect. -/
theorem C1_witness :
    Tux.process_commands cfgEx ["ping"] 99 guildMsgBlacklisted = .ok [] :=
  C1_blacklisted_guild_message_dropped cfgEx ["ping"] 99 guildMsgBlacklisted
    11 rfl (by decide)

/-- C1 counterexample: the direct message from the blacklisted user 7 is
not dropped with no observable side effect — `message.guild.id` raises
`AttributeError` (the guild is `None`), so dispatch ends in an uncaught
error rather than a silent drop. -/
theorem C1_counterexample :
    Tux.process_commands cfgEx ["ping"] 99 dmFromBlacklisted
      ≠ Except.ok []
    ∧ Tux.process_commands cfgEx ["ping"] 99 dmFromBlacklisted
      = Except.error attributeErrorMsg := by
  have he : Tux.process_commands cfgEx ["ping"] 99 dmFromBlacklisted
      = Except.error attributeErrorMsg := rfl
  refine ⟨fun h => ?_, he⟩
  rw [he] at h
  exact Except.noConfusion h

/-- C2: for every incoming message, the resolved prefix list is the global
default prefix list of the `core` namespace, followed by the guild's
override list when the message has a guild (`Config.get_prefixes` yields
`[]` for a guild-less message and the override list otherwise), with the
bot's mention forms added (in front) exactly when `mentionable` is enabled
in the core config. -/
theorem C2_resolved_prefix_list (cfg : Config) (botUserId : Snowflake)
    (m : Message) :
    (Tux._prefixes botUserId cfg m).1 =
      (if cfg.mentionable then when_mentioned botUserId else [])
        ++ (cfg.corePrefixes ++ cfg.get_prefixes m.guild) := by
  unfold Tux._prefixes when_mentioned_or
  by_cases h : cfg.mentionable <;> simp [h]

/-- C3 (amended): for every guild-less (direct) message, the legacy
resolver `_prefix_callable` (src/bot.py) never consults the per-guild
prefix store (any two stores give the same result) and resolves to the
mention forms followed by the fixed fallback `['.']`, a list that is never
empty.  (As stated over "the resolver" the claim fails for the `Tux`
resolver of src/tuxbot/core/bot.py, which has no `['.']` fallback: with no
core prefixes and `mentionable` off it resolves a direct message to the
empty list, see the counterexample.) -/
theorem C3_legacy_dm_fallback (store store2 : Snowflake → List String)
    (botUserId : Snowflake) (m : Message) (hg : m.guild = none) :
    _prefix_callable store botUserId m = when_mentioned botUserId ++ ["."]
    ∧ _prefix_callable store botUserId m ≠ []
    ∧ _prefix_callable store botUserId m
      = _prefix_callable store2 botUserId m := by
  unfold _prefix_callable when_mentioned_or
  rw [hg]
  exact ⟨rfl, by simp [when_mentioned], rfl⟩

/-- C3 witness: the direct message `dmPlain` resolves, under any store, to
the mention forms plus `['.']`. -/
theorem C3_witness :
    _prefix_callable (fun _ => []) 99 dmPlain = when_mentioned 99 ++ ["."]
    ∧ _prefix_callable (fun _ => []) 99 dmPlain ≠ []
    ∧ _prefix_callable (fun _ => []) 99 dmPlain
      = _prefix_callable (fun _ => ["?"]) 99 dmPlain :=
  C3_legacy_dm_fallback (fun _ => []) (fun _ => ["?"]) 99 dmPlain rfl

/-- C3 counterexample: the `Tux` resolver with no core prefixes and
`mentionable` off resolves the direct message `dmPlain` to the empty
list — the resolved prefix list of a guild-less message can be empty. -/
theorem C3_counterexample :
    (Tux._prefixes 99 cfgNoPrefixes dmPlain).1 = [] := rfl

/-- C4 (amended): once the one-time application-team lookup has completed
(`_app_owners_fetched` is set), `Tux.is_owner` performs no further remote
lookups, leaves the state unchanged, and therefore returns the same result
on every subsequent call; but the fetched team-member ids REPLACE the
persisted `owners_id` value (`config.update` assigns the list) rather than
being merged into it — the new persisted set is exactly the team list.
(The claim's "merged back ... so IDs already in the configured owner set
remain recognized" fails, see the counterexample.) -/
theorem C4_stable_after_fetch_and_replaces
    (team : Option (List Snowflake)) (uid uid2 : Snowflake)
    (st st0 : OwnerState) (ids : List Snowflake)
    (hf : st.appOwnersFetched = true)
    (h0 : st0.appOwnersFetched = false)
    (h1 : uid2 ∉ st0.ownersId) :
    (Tux.is_owner team uid st).remoteLookups = 0
    ∧ (Tux.is_owner team uid st).state = st
    ∧ Tux.is_owner team uid ((Tux.is_owner team uid st).state)
      = Tux.is_owner team uid st
    ∧ (Tux.is_owner (some ids) uid2 st0).state.ownersId = ids
    ∧ (Tux.is_owner (some ids) uid2 st0).state.appOwnersFetched = true := by
  have h2 : (Tux.is_owner team uid st).state = st := by
    unfold Tux.is_owner
    by_cases hc : uid ∈ st.ownersId <;> simp [hc, hf]
  refine ⟨?_, h2, by rw [h2], ?_, ?_⟩
  · unfold Tux.is_owner
    by_cases hc : uid ∈ st.ownersId <;> simp [hc, hf]
  · unfold Tux.is_owner
    simp [h0, h1]
  · unfold Tux.is_owner
    simp [h0, h1]

/-- C4 witness: with the lookup already done (state `⟨[2], true⟩`), a call
for user 5 does no remote lookup and leaves the state — hence the result —
unchanged; and a fetch from state `⟨[1], false⟩` with team `[2]` leaves
exactly `[2]` persisted. -/
theorem C4_witness :
    (Tux.is_owner (some [2]) 5 (⟨[2], true⟩ : OwnerState)).remoteLookups = 0
    ∧ (Tux.is_owner (some [2]) 5 (⟨[2], true⟩ : OwnerState)).state
      = (⟨[2], true⟩ : OwnerState)
    ∧ Tux.is_owner (some [2]) 5
        ((Tux.is_owner (some [2]) 5 (⟨[2], true⟩ : OwnerState)).state)
      = Tux.is_owner (some [2]) 5 (⟨[2], true⟩ : OwnerState)
    ∧ (Tux.is_owner (some [2]) 9 (⟨[1], false⟩ : OwnerState)).state.ownersId
      = [2]
    ∧ (Tux.is_owner (some [2]) 9
        (⟨[1], false⟩ : OwnerState)).state.appOwnersFetched = true :=
  C4_stable_after_fetch_and_replaces (some [2]) 5 9 ⟨[2], true⟩ ⟨[1], false⟩
    [2] rfl rfl (by decide)

/-- C4 counterexample: user 1 is in the configured owner set `[1]`, the
application team is `[2]`; the first call (for user 3) performs the
one-time lookup, after which the persisted owner set is `[2]` — the
configured owner 1 is NOT merged back and is no longer recognized. -/
theorem C4_counterexample :
    ((Tux.is_owner (some [2]) 3 (⟨[1], false⟩ : OwnerState)).state).ownersId
      = [2]
    ∧ (Tux.is_owner (some [2]) 1
        ((Tux.is_owner (some [2]) 3 (⟨[1], false⟩ : OwnerState)).state)).owner
      = false
    ∧ (([1] : List Snowflake).contains 1) = true := by decide

/-- C5 (amended): for every non-bot, non-blacklisted message WITH an
associated guild whose context is invalid (no candidate prefix matches, or
a prefix matches but no known command name follows — `ctx_valid` is
false), `Tux.process_commands` emits the "message without command" signal
exactly once and invokes no command.  (As stated over all messages the
claim fails: a non-bot, non-blacklisted direct message raises
`AttributeError` at the guild dereference before any signal, see the
counterexample.) -/
theorem C5_signal_emitted_exactly_once
    (cfg : Config) (known : List String) (botUserId : Snowflake)
    (m : Message) (gid : Snowflake)
    (hg : m.guild = some gid) (hb : m.author.bot = false)
    (hgbl : gid ∉ cfg.get_blacklist .guild)
    (hcbl : m.channelId ∉ cfg.get_blacklist .channel)
    (hubl : m.author.id ∉ cfg.get_blacklist .user)
    (hv : ctx_valid (Tux._prefixes botUserId cfg m).1 known m.content
      = false) :
    Tux.process_commands cfg known botUserId m
      = .ok [.signalMessageWithoutCommand] := by
  unfold Tux.process_commands
  simp only [hb, Bool.false_eq_true, if_false]
  rw [hg]
  unfold ctx_valid at hv
  cases hm : firstMatch (Tux._prefixes botUserId cfg m).1 m.content with
  | none => simp [hgbl, hcbl, hubl, hm]
  | some p =>
    rw [hm] at hv
    simp at hv
    simp [hgbl, hcbl, hubl, hm, hv]

/-- C5 witness: under `cfgEx` the guild message `"ping"` (no prefix
matches) from the unblacklisted user 8 yields exactly one
"message without command" signal and no invocation. -/
theorem C5_witness :
    Tux.process_commands cfgEx ["ping"] 99 guildMsgPlain
      = .ok [.signalMessageWithoutCommand] :=
  C5_signal_emitted_exactly_once cfgEx ["ping"] 99 guildMsgPlain 11 rfl rfl
    (by decide) (by decide) (by decide) (by decide)

/-- C5 counterexample: the non-bot, non-blacklisted direct message
`"ping"` does not produce the signal — dispatch raises `AttributeError`
at the guild dereference instead. -/
theorem C5_counterexample :
    Tux.process_commands cfgEx ["ping"] 99 dmPlain
      ≠ Except.ok [Effect.signalMessageWithoutCommand]
    ∧ Tux.process_commands cfgEx ["ping"] 99 dmPlain
      = Except.error attributeErrorMsg := by
  have he : Tux.process_commands cfgEx ["ping"] 99 dmPlain
      = Except.error attributeErrorMsg := rfl
  refine ⟨fun h => ?_, he⟩
  rw [he] at h
  exact Except.noConfusion h

/-- C6: for every command error that is an invocation or conversion
failure whose underlying error is neither a permission (`Forbidden`) nor a
not-found failure, `Logs.on_command_error` forwards exactly one structured
report to the external error sink, carrying the command name, the author's
id and a non-empty formatted trace string; and `TuxBot.on_command_error`
sends no reply to the invoking user for it. -/
theorem C6_generic_error_single_report (ctx : CtxInfo) (excText : String) :
    Logs.on_command_error ctx (.commandInvokeError (.generic excText))
      = [{ name := ctx.commandName, authorId := ctx.authorId,
           description := traceBlock excText }]
    ∧ Logs.on_command_error ctx (.conversionError (.generic excText))
      = [{ name := ctx.commandName, authorId := ctx.authorId,
           description := traceBlock excText }]
    ∧ traceBlock excText ≠ ""
    ∧ TuxBot.on_command_error (.commandInvokeError (.generic excText)) = []
    ∧ TuxBot.on_command_error (.conversionError (.generic excText)) = [] := by
  refine ⟨rfl, rfl, ?_, rfl, rfl⟩
  intro h
  have h1 : (traceBlock excText).length = 0 := by rw [h]; rfl
  rw [traceBlock, String.length_append, String.length_append] at h1
  have h2 : ("```py\n" : String).length = 6 := rfl
  have h3 : ("\n```" : String).length = 4 := rfl
  omega

/-- C7: for a guild-only command used in a direct message
(`commands.NoPrivateMessage`), `TuxBot.on_command_error` sends exactly one
direct reply explaining the restriction, and `Logs.on_command_error`
forwards nothing to the external error sink. -/
theorem C7_guild_only_single_reply (ctx : CtxInfo) :
    TuxBot.on_command_error .noPrivateMessage
      = ["This command cannot be used in private messages."]
    ∧ (TuxBot.on_command_error .noPrivateMessage).length = 1
    ∧ Logs.on_command_error ctx .noPrivateMessage = [] :=
  ⟨rfl, rfl, rfl⟩

/-- C8 (amended): the module-level `on_error` handler swallows every
delivery failure of the types its `except` clause lists —
`discord.HTTPException`, `discord.NotFound`, `discord.Forbidden`,
`discord.InvalidArgument` — and returns normally, never raising back into
the event loop.  (As stated over every notification attempt of the sink
the claim fails: the error-report send inside `Logs.on_command_error`
stands in no `try` block, so a delivery failure there propagates, see the
counterexample.) -/
theorem C8_on_error_swallows_caught :
    on_error none = Except.ok ()
    ∧ on_error (some .httpException) = Except.ok ()
    ∧ on_error (some .sendNotFound) = Except.ok ()
    ∧ on_error (some .sendForbidden) = Except.ok ()
    ∧ on_error (some .invalidArgument) = Except.ok () :=
  ⟨rfl, rfl, rfl, rfl, rfl⟩

/-- C8 counterexample: when the external sink is unreachable (the webhook
send raises `HTTPException`), `Logs.on_command_error`'s unprotected send
raises back into the event loop instead of swallowing the error. -/
theorem C8_counterexample :
    Logs.on_command_error_send
        ({ commandName := "ping", authorId := 7 } : CtxInfo)
        (.commandInvokeError
          (.generic "ZeroDivisionError: division by zero"))
        (fun _ => some .httpException)
      = Except.error SendError.httpException := rfl

/-- C9: for every direct (guild-less) message from a non-bot author,
`Tux.process_commands` evaluates `message.guild.id` with `message.guild`
equal to `None` and raises `AttributeError` before any blacklist
membership test, before any signal emission and before any command
invocation — the result is the error, with no effect list, so
direct-message commands are never processed. -/
theorem C9_dm_dispatch_raises (cfg : Config) (known : List String)
    (botUserId : Snowflake) (m : Message)
    (hg : m.guild = none) (hb : m.author.bot = false) :
    Tux.process_commands cfg known botUserId m
      = .error attributeErrorMsg := by
  unfold Tux.process_commands
  simp only [hb, Bool.false_eq_true, if_false]
  rw [hg]

/-- C9 witness: the direct message `"!help"` from the non-bot user 12
raises `AttributeError` under `cfgEx`. -/
theorem C9_witness :
    Tux.process_commands cfgEx ["help"] 99 dmOther
      = .error attributeErrorMsg :=
  C9_dm_dispatch_raises cfgEx ["help"] 99 dmOther rfl rfl

/-- C10: the `Tux` prefix resolver extends, in place, the very list object
obtained from `config("core").get("prefixes")`: after resolving a guild
message the core prefix list held by the store equals the old core list
with the guild's override list appended (so it changed whenever the
override list is non-empty), and a second resolution for the same guild
appends the override list again — overrides accumulate into the core
prefix list across successive resolutions. -/
theorem C10_core_prefixes_mutated (cfg : Config) (botUserId : Snowflake)
    (m : Message) (g : Snowflake) (hg : m.guild = some g) :
    (Tux._prefixes botUserId cfg m).2.corePrefixes
      = cfg.corePrefixes ++ cfg.guildPrefixes g
    ∧ (Tux._prefixes botUserId
        (Tux._prefixes botUserId cfg m).2 m).2.corePrefixes
      = (cfg.corePrefixes ++ cfg.guildPrefixes g) ++ cfg.guildPrefixes g
    ∧ (cfg.guildPrefixes g ≠ [] →
        (Tux._prefixes botUserId cfg m).2.corePrefixes
          ≠ cfg.corePrefixes) := by
  have hstate : ∀ c : Config, (Tux._prefixes botUserId c m).2
      = { c with corePrefixes := c.corePrefixes ++ c.guildPrefixes g } := by
    intro c
    unfold Tux._prefixes
    by_cases h : c.mentionable <;> simp [h, Config.get_prefixes, hg]
  have h1 : (Tux._prefixes botUserId cfg m).2.corePrefixes
      = cfg.corePrefixes ++ cfg.guildPrefixes g := by rw [hstate]
  refine ⟨h1, ?_, ?_⟩
  · rw [hstate, hstate]
  · intro hk h
    rw [h1] at h
    have := congrArg List.length h
    rw [List.length_append] at this
    exact hk (List.eq_nil_of_length_eq_zero (by omega))

/-- C10 witness: under `cfgGuild` (core `["!"]`, override `["?"]`),
resolving the guild message once leaves core prefixes `["!", "?"]`, and a
second resolution leaves `["!", "?", "?"]`. -/
theorem C10_witness :
    (Tux._prefixes 99 cfgGuild guildMsg17).2.corePrefixes
      = cfgGuild.corePrefixes ++ cfgGuild.guildPrefixes 17
    ∧ (Tux._prefixes 99
        (Tux._prefixes 99 cfgGuild guildMsg17).2 guildMsg17).2.corePrefixes
      = (cfgGuild.corePrefixes ++ cfgGuild.guildPrefixes 17)
        ++ cfgGuild.guildPrefixes 17
    ∧ (cfgGuild.guildPrefixes 17 ≠ [] →
        (Tux._prefixes 99 cfgGuild guildMsg17).2.corePrefixes
          ≠ cfgGuild.corePrefixes) :=
  C10_core_prefixes_mutated cfgGuild 99 guildMsg17 17 rfl

end Tuxbot
